import Mathlib

/-!
A shallow embedding of the stock-value-forecast news pipeline:
the `RelevancyAnalyzer` scorer of `netlify/functions/yahoo.js`, the
sentiment derivation of `js/forecastEngine.js`, and the multi-source
news aggregation of the `NewsFeed` module.

Modelling conventions:
* JS strings are `List Char` (`Str`); `toLowerCase`, `includes`,
  `split(/\s+/)` and the word-boundary regexes built by the code are
  modelled character by character below.
* JS numbers are `Int`/`Rat` where the code only does integer or ratio
  arithmetic, and `Real` where `Math.log` enters (the TF-IDF component),
  with `Math.round x = ⌊x + 1/2⌋ = round x`.
* Missing object fields are `Option`; the JS falsy checks (`x || y`) are
  modelled with explicit emptiness tests.
* Dates are epoch milliseconds (`Int`); a missing/empty `pubDate` is `none`.
-/

/-! ## JS string primitives -/

abbrev Str := List Char
def lowerStr (s : Str) : Str := s.map Char.toLower
def isWsChar (c : Char) : Bool := c == ' ' || c == '\t' || c == '\n' || c == '\r'
/-- One-character splitting pass: splits at every whitespace character,
keeping the empty pieces between consecutive separators. -/
def splitWs1 : Str → List Str
  | [] => [[]]
  | c :: rest =>
    match splitWs1 rest with
    | [] => [[]]
    | h :: t => if isWsChar c then [] :: h :: t else (c :: h) :: t
/-- Drop the empty pieces that sit between two separators, keeping a
leading or trailing empty piece, as `String.prototype.split(/\s+/)` does. -/
def keepLastNonempty : List Str → List Str
  | [] => []
  | [x] => [x]
  | x :: y :: rest =>
    if x.isEmpty then keepLastNonempty (y :: rest) else x :: keepLastNonempty (y :: rest)
/-- JS `s.split(/\s+/)`: maximal whitespace runs are separators; a leading
or trailing run contributes an empty piece, and `"".split` gives `[""]`. -/
def jsSplitWs (s : Str) : List Str :=
  match splitWs1 s with
  | [] => [[]]
  | x :: xs => x :: keepLastNonempty xs
/-- JS `t.includes(s)`. -/
def containsSub : Str → Str → Bool
  | t, s => if s.isPrefixOf t then true else
    match t with
    | [] => false
    | _ :: rest => containsSub rest s
/-- JS regex `\w`: ASCII alphanumerics and underscore. -/
def isWordChar (c : Char) : Bool := c.isAlphanum || c == '_'
def isWordOpt : Option Char → Bool
  | none => false
  | some c => isWordChar c
/-- A `\b` boundary sits between two positions iff exactly one side is a
word character (the edge of the string counts as a non-word character). -/
def bdry (a b : Option Char) : Bool := isWordOpt a != isWordOpt b
def wbAt (term : Str) (prev : Option Char) (text : Str) : Bool :=
  term.isPrefixOf text && bdry prev term.head? &&
    bdry term.getLast? (text.drop term.length).head?
def wbScan (term : Str) (prev : Option Char) : Str → Bool
  | [] => wbAt term prev []
  | c :: rest => wbAt term prev (c :: rest) || wbScan term (some c) rest
/-- Test of the regex `\bterm\b` where every metacharacter of `term` has
been escaped (so `term` is matched literally). -/
def wbTest (term text : Str) : Bool := !term.isEmpty && wbScan term none text
/-- One atom of the bare-symbol regex. The code interpolates the raw
(lowercased) symbol into `new RegExp` without escaping, so a `'.'` in the
symbol is the regex wildcard: it matches any character except a line
terminator. Every other character of a validated ticker is a letter and
matches itself. (A symbol holding some other metacharacter would change
the regex further; the boundary validation `isValidSymbol` admits only
letters and the dot, so no such symbol reaches the scorer.) -/
def symCharMatches (p c : Char) : Bool :=
  if p == '.' then !(c == '\n' || c == '\r' || c == '\u2028' || c == '\u2029')
  else p == c
/-- The symbol's atoms consume one text character each, in order. -/
def symPrefixAt : Str → Str → Bool
  | [], _ => true
  | _ :: _, [] => false
  | p :: ps, c :: cs => symCharMatches p c && symPrefixAt ps cs
/-- Match of `\bsym\b` at the current position: the atoms match and both
`\b` boundaries hold against the text characters actually consumed. -/
def symWbAt (sym : Str) (prev : Option Char) (text : Str) : Bool :=
  symPrefixAt sym text && bdry prev text.head? &&
    bdry (text.take sym.length).getLast? (text.drop sym.length).head?
def symWbScan (sym : Str) (prev : Option Char) : Str → Bool
  | [] => symWbAt sym prev []
  | c :: rest => symWbAt sym prev (c :: rest) || symWbScan sym (some c) rest
/-- Match of `\$sym\b` at the current position: a literal `'$'`, then the
symbol's atoms, then a `\b` boundary. -/
def symDollarAt (sym : Str) (text : Str) : Bool :=
  match text with
  | [] => false
  | c :: rest =>
    c == '$' && symPrefixAt sym rest &&
      bdry (rest.take sym.length).getLast? (rest.drop sym.length).head?
def symDollarScan (sym : Str) : Str → Bool
  | [] => symDollarAt sym []
  | c :: rest => symDollarAt sym (c :: rest) || symDollarScan sym rest
/-- Test of the bare-symbol regex `` `\b${sym}\b|\$${sym}\b` `` built from
the unescaped symbol (tickers are nonempty). -/
def symbolPatternTest (sym text : Str) : Bool :=
  !sym.isEmpty && (symWbScan sym none text || symDollarScan sym text)
def isUpperAZ (c : Char) : Bool := 'A' ≤ c && c ≤ 'Z'
/-- `StockManager.isValidSymbol`: the boundary validation
`/^[A-Z]{1,5}(\.[A-Z])?$/` — 1 to 5 uppercase letters with an optional
dot-and-letter suffix (e.g. BRK.B); anything else never reaches the
scorer. -/
def isValidSymbol (s : Str) : Bool :=
  let letters := s.takeWhile isUpperAZ
  (1 ≤ letters.length && letters.length ≤ 5) &&
    (match s.drop letters.length with
     | [] => true
     | ['.', c] => isUpperAZ c
     | _ => false)
/-! ## Data model -/

/-- A canonical news article record as produced by the feed parsers. -/
structure Article where
  title : Option Str
  description : Option Str
  contentSnippet : Option Str
  link : Option Str
  pubDate : Option Int
  author : Option Str
deriving DecidableEq
/-- One entry of the company knowledge base (`initializeCompanyDatabase`).
`products` is `none` for the companies whose record has no `products`
field (JPM, BAC, WMT, NKE, MA, V). -/
structure CompanyData where
  names : List Str
  products : Option (List Str)
  keywords : List Str
  competitors : List Str
  industries : List Str
  exclude : List Str
deriving DecidableEq
instance : Inhabited CompanyData :=
  ⟨{ names := [], products := none, keywords := [], competitors := [],
     industries := [], exclude := [] }⟩
def strs (l : List String) : List Str := l.map String.data
def aaplCompany : CompanyData :=
  { names := strs ["apple", "apple inc", "apple computer", "apples"],
    products := some (strs ["iphone", "ipad", "macbook", "imac", "airpods", "apple watch", "app store", "ios", "macos", "safari", "apple silicon", "m series"]),
    keywords := strs ["tim cook", "apple store", "app store", "apple pay", "apple tv", "icloud"],
    competitors := strs ["microsoft", "samsung", "google"],
    industries := strs ["technology", "consumer electronics", "software"],
    exclude := strs ["apple pie", "apple cider", "apple tree", "big apple"] }
def msftCompany : CompanyData :=
  { names := strs ["microsoft", "msft"],
    products := some (strs ["windows", "office", "azure", "xbox", "surface", "bing", "teams", "outlook", "excel", "word", "powerpoint", "github", "linkedin"]),
    keywords := strs ["satya nadella", "microsoft office", "windows 11", "microsoft cloud", "office 365"],
    competitors := strs ["apple", "google", "amazon"],
    industries := strs ["technology", "software", "cloud computing"],
    exclude := [] }
def googlCompany : CompanyData :=
  { names := strs ["google", "alphabet", "googl", "goog"],
    products := some (strs ["android", "chrome", "youtube", "gmail", "maps", "search", "pixel", "google cloud", "drive", "g suite", "workspace"]),
    keywords := strs ["sundar pichai", "google search", "google ads", "adwords", "google play", "waymo"],
    competitors := strs ["apple", "microsoft", "meta"],
    industries := strs ["technology", "advertising", "software"],
    exclude := [] }
def amznCompany : CompanyData :=
  { names := strs ["amazon", "amzn", "amazon.com"],
    products := some (strs ["aws", "alexa", "echo", "kindle", "prime", "prime video", "amazon web services", "s3", "ec2"]),
    keywords := strs ["jeff bezos", "andy jassy", "amazon prime", "amazon web services", "amazon marketplace"],
    competitors := strs ["walmart", "ebay", "google"],
    industries := strs ["e-commerce", "cloud computing", "retail"],
    exclude := strs ["amazon rainforest", "amazon river"] }
def nvdaCompany : CompanyData :=
  { names := strs ["nvidia", "nvda"],
    products := some (strs ["gpu", "graphics card", "geforce", "rtx", "cuda", "tensor", "a100", "h100", "dlss"]),
    keywords := strs ["jensen huang", "nvidia gpu", "artificial intelligence", "ai chip", "data center", "rtx gpu"],
    competitors := strs ["amd", "intel"],
    industries := strs ["technology", "semiconductors", "artificial intelligence"],
    exclude := [] }
def metaCompany : CompanyData :=
  { names := strs ["meta", "facebook", "fb", "meta platforms"],
    products := some (strs ["instagram", "whatsapp", "oculus", "metaverse", "reality labs", "facebook messenger"]),
    keywords := strs ["mark zuckerberg", "meta platforms", "virtual reality", "vr", "ar"],
    competitors := strs ["google", "twitter", "snapchat"],
    industries := strs ["technology", "social media", "advertising"],
    exclude := strs ["facebook marketplace"] }
def tslaCompany : CompanyData :=
  { names := strs ["tesla", "tsla", "tesla motors"],
    products := some (strs ["model 3", "model y", "model s", "model x", "cybertruck", "tesla vehicle", "supercharger", "autopilot", "fsd"]),
    keywords := strs ["elon musk", "tesla motors", "electric vehicle", "ev", "autopilot", "full self driving", "tesla stock"],
    competitors := strs ["ford", "gm", "rivian", "nio"],
    industries := strs ["automotive", "electric vehicles", "clean energy"],
    exclude := strs ["tesla coil", "nikola tesla"] }
def nflxCompany : CompanyData :=
  { names := strs ["netflix", "nflx"],
    products := some (strs ["netflix streaming", "netflix original", "netflix series"]),
    keywords := strs ["netflix subscribers", "streaming service", "netflix content", "netflix shows"],
    competitors := strs ["disney", "hulu", "amazon prime"],
    industries := strs ["entertainment", "streaming", "media"],
    exclude := [] }
def amdCompany : CompanyData :=
  { names := strs ["amd", "advanced micro devices"],
    products := some (strs ["ryzen", "epyc", "radeon", "gpu", "cpu", "xilinx"]),
    keywords := strs ["lisa su", "amd processor", "amd graphics", "amd ryzen"],
    competitors := strs ["intel", "nvidia"],
    industries := strs ["technology", "semiconductors"],
    exclude := [] }
def intcCompany : CompanyData :=
  { names := strs ["intel", "intc", "intel corporation"],
    products := some (strs ["core i7", "core i9", "xeon", "pentium", "celeron", "intel processor", "arc"]),
    keywords := strs ["pat gelsinger", "intel chip", "intel processor", "intel core"],
    competitors := strs ["amd", "nvidia", "qualcomm"],
    industries := strs ["technology", "semiconductors"],
    exclude := strs ["intellectual property"] }
def disCompany : CompanyData :=
  { names := strs ["disney", "dis", "walt disney"],
    products := some (strs ["disney+", "disney plus", "marvel", "star wars", "pixar", "espn", "abc", "hulu"]),
    keywords := strs ["bob iger", "disney theme park", "disneyland", "disney world", "disney studio"],
    competitors := strs ["netflix", "comcast", "warner bros"],
    industries := strs ["entertainment", "media", "theme parks"],
    exclude := [] }
def jpmCompany : CompanyData :=
  { names := strs ["jpmorgan", "jp morgan", "jpm", "jpmorgan chase"],
    products := none,
    keywords := strs ["jamie dimon", "jpmorgan chase", "chase bank"],
    competitors := strs ["bank of america", "wells fargo", "citigroup"],
    industries := strs ["finance", "banking", "investment banking"],
    exclude := [] }
def bacCompany : CompanyData :=
  { names := strs ["bank of america", "bofa", "bac", "boa"],
    products := none,
    keywords := strs ["bank of america", "merrill lynch", "brian moynihan"],
    competitors := strs ["jpmorgan", "wells fargo", "citigroup"],
    industries := strs ["finance", "banking"],
    exclude := [] }
def wmtCompany : CompanyData :=
  { names := strs ["walmart", "wmt"],
    products := none,
    keywords := strs ["walmart", "doug mcmillon"],
    competitors := strs ["amazon", "target", "costco"],
    industries := strs ["retail", "consumer goods"],
    exclude := [] }
def nkeCompany : CompanyData :=
  { names := strs ["nike", "nke"],
    products := none,
    keywords := strs ["nike", "john donahoe", "nike air"],
    competitors := strs ["adidas", "puma", "under armour"],
    industries := strs ["retail", "apparel", "sports"],
    exclude := [] }
def maCompany : CompanyData :=
  { names := strs ["mastercard", "ma", "mc"],
    products := none,
    keywords := strs ["mastercard", "ajay banga"],
    competitors := strs ["visa", "american express"],
    industries := strs ["finance", "payments"],
    exclude := [] }
def visaCompany : CompanyData :=
  { names := strs ["visa", "v"],
    products := none,
    keywords := strs ["visa", "ryan mclnerney"],
    competitors := strs ["mastercard", "american express"],
    industries := strs ["finance", "payments"],
    exclude := [] }
/-- `RelevancyAnalyzer.initializeCompanyDatabase`. -/
def companyDatabase : List (Str × CompanyData) :=
  [("AAPL".data, aaplCompany), ("MSFT".data, msftCompany),
   ("GOOGL".data, googlCompany), ("AMZN".data, amznCompany),
   ("NVDA".data, nvdaCompany), ("META".data, metaCompany),
   ("TSLA".data, tslaCompany), ("NFLX".data, nflxCompany),
   ("AMD".data, amdCompany), ("INTC".data, intcCompany),
   ("DIS".data, disCompany), ("JPM".data, jpmCompany),
   ("BAC".data, bacCompany), ("WMT".data, wmtCompany),
   ("NKE".data, nkeCompany), ("MA".data, maCompany),
   ("V".data, visaCompany)]
/-- `this.companyDatabase[symbol]`: property lookup is by the exact
symbol string (case-sensitive). -/
def dbLookup (symbol : Str) : Option CompanyData :=
  (companyDatabase.find? (fun p => p.1 == symbol)).map (fun p => p.2)
/-! ## Text extraction (`scoreArticleRelevance` prologue) -/

/-- JS falsy-chaining `a || b` for strings already defaulted to `''`. -/
def orFalsy (a b : Str) : Str := if a.isEmpty then b else a
/-- `(article.title || '').toLowerCase()`. -/
def articleTitle (a : Article) : Str := lowerStr (a.title.getD [])
/-- `((article.contentSnippet || article.description || '') + ' ' + (article.link || '')).toLowerCase()`. -/
def articleDescriptionText (a : Article) : Str :=
  lowerStr (orFalsy (a.contentSnippet.getD []) (a.description.getD []) ++ ' ' :: a.link.getD [])
/-- `title + ' ' + description`. -/
def fullTextOf (a : Article) : Str := articleTitle a ++ ' ' :: articleDescriptionText a
/-! ## Direct matching (`RelevancyAnalyzer.scoreDirectMatches`) -/

def symbolMatchScore (symbol : Str) (title fullText : Str) : Int :=
  if !title.isEmpty && symbolPatternTest (lowerStr symbol) title then 150
  else if symbolPatternTest (lowerStr symbol) fullText then 80
  else 0
/-- Per-name increment of the `companyData.names.forEach` loop. -/
def nameScore (title fullText : Str) (name : Str) : Int :=
  if !title.isEmpty && wbTest name title then 100
  else if wbTest name fullText then 60
  else 0
/-- Per-product increment of the `companyData.products.forEach` loop. -/
def productScore (title fullText : Str) (product : Str) : Int :=
  if !title.isEmpty && wbTest product title then 70
  else if wbTest product fullText then 40
  else 0
/-- Per-keyword increment of the `companyData.keywords.forEach` loop. -/
def keywordScore (fullText : Str) (keyword : Str) : Int :=
  if wbTest keyword fullText then 30 else 0
def scoreDirectMatches (symbol : Str) (companyData : CompanyData)
    (title _description fullText : Str) : Int :=
  let s := symbolMatchScore symbol title fullText
  let s := companyData.names.foldl (fun acc name => acc + nameScore title fullText name) s
  let s := (companyData.products.getD []).foldl
    (fun acc product => acc + productScore title fullText product) s
  companyData.keywords.foldl (fun acc keyword => acc + keywordScore fullText keyword) s
/-! ## Semantic similarity and financial context -/

def financialTermsList : List Str := strs
  ["earnings", "revenue", "profit", "loss", "stock", "shares", "dividend",
   "quarterly", "analyst", "forecast", "price target", "upgrade", "downgrade",
   "ipo", "merger", "acquisition", "quarterly results", "guidance"]
/-- `RelevancyAnalyzer.scoreSemanticSimilarity`. -/
def scoreSemanticSimilarity (companyData : CompanyData) (text : Str) : Int :=
  let s : Int := if financialTermsList.any (fun t => containsSub text t) then 25 else 0
  let competitorMentions :=
    (companyData.competitors.filter (fun c => containsSub text (lowerStr c))).length
  let s := if 0 < competitorMentions then s + 15 * competitorMentions else s
  companyData.industries.foldl
    (fun acc industry => if containsSub text (lowerStr industry) then acc + 20 else acc) s
def strongFinancialTermsList : List Str := strs
  ["earnings report", "quarterly earnings", "revenue growth",
   "stock price", "market cap", "trading volume", "dividend yield"]
def sentimentTermsList : List Str := strs
  ["surge", "plunge", "rally", "sell-off", "upgrade", "downgrade"]
/-- `RelevancyAnalyzer.scoreFinancialContext`. -/
def scoreFinancialContext (text : Str) : Int :=
  let s := strongFinancialTermsList.foldl
    (fun acc t => if containsSub text t then acc + 20 else acc) (0 : Int)
  sentimentTermsList.foldl (fun acc t => if containsSub text t then acc + 15 else acc) s
/-! ## Exclusion penalty (`RelevancyAnalyzer.penalizeExclusions`) -/

/-- The `hasExclusion` flag: some `exclude` phrase occurs in the text. -/
def excludeHit (companyData : CompanyData) (text : Str) : Bool :=
  companyData.exclude.any (fun t => containsSub text t)
noncomputable def penalizeExclusions (companyData : CompanyData) (text : Str)
    (currentScore : ℝ) : ℝ :=
  if companyData.exclude.isEmpty then currentScore
  else if excludeHit companyData text = true ∧ currentScore < 50 then 0
  else if excludeHit companyData text = true then max 0 (currentScore - 50)
  else currentScore
/-! ## TF-IDF (`scoreTFIDF`, `termFrequency`, `initializeDocumentFrequency`) -/

/-- `RelevancyAnalyzer.termFrequency`: share of the words of `document`
that contain `term` as a substring. -/
def termFrequency (term document : Str) : ℚ :=
  let words := jsSplitWs (lowerStr document)
  ((words.filter (fun w => containsSub w (lowerStr term))).length : ℚ) / (words.length : ℚ)
/-- The terms a company record contributes to the document-frequency map:
`allTerms.add(...company.names)` passes the spread list to `Set.add`,
which only uses its first argument, so only the head of each list lands
in the set. -/
def firstDfTerms (c : CompanyData) : List Str :=
  [c.names.headD []] ++
    (match c.products with
     | some ps => [ps.headD []]
     | none => []) ++
    [c.keywords.headD []]
/-- The key set of `this.documentFrequency` after `initializeDocumentFrequency`. -/
def dfTermList : List Str :=
  companyDatabase.foldl (fun acc p => acc ++ firstDfTerms p.2) []
/-- `(article.title || '') + ' ' + (article.description || '')`, lowered. -/
def docFreqText (a : Article) : Str :=
  lowerStr (a.title.getD [] ++ ' ' :: a.description.getD [])
/-- How many articles of the corpus contain `term` (case-insensitively). -/
def countContaining (articles : List Article) (term : Str) : ℕ :=
  (articles.filter (fun a => containsSub (docFreqText a) (lowerStr term))).length
/-- `this.documentFrequency.get(term.toLowerCase()) || 1`: the stored
count (floored at 1 by `count || 1`) for the terms that reached the map,
and the `|| 1` default for every other term. -/
def docCountOf (articles : List Article) (term : Str) : ℕ :=
  if lowerStr term ∈ dfTermList.map lowerStr then
    max (countContaining articles (lowerStr term)) 1
  else 1
/-- `RelevancyAnalyzer.inverseDocumentFrequency`:
`Math.log(totalDocs / docCount)`. -/
noncomputable def inverseDocumentFrequency (term : Str) (totalDocs : ℕ)
    (articles : List Article) : ℝ :=
  Real.log ((totalDocs : ℝ) / (docCountOf articles term : ℝ))
/-- `[symbol.toLowerCase(), ...names, ...(products || []), ...(keywords || [])]`. -/
def tfidfAllTerms (symbol : Str) (companyData : CompanyData) : List Str :=
  lowerStr symbol :: (companyData.names ++ (companyData.products.getD [] ++ companyData.keywords))
/-- `RelevancyAnalyzer.scoreTFIDF`: `score += tf * idf * 10` over all terms. -/
noncomputable def scoreTFIDF (symbol : Str) (companyData : CompanyData)
    (text : Str) (allArticles : List Article) : ℝ :=
  (tfidfAllTerms symbol companyData).foldl
    (fun acc term => acc +
      ((termFrequency term text : ℚ) : ℝ) *
        inverseDocumentFrequency term allArticles.length allArticles * 10) 0
/-! ## The full relevance score -/

/-- `RelevancyAnalyzer.basicSymbolMatch` for tickers without a profile. -/
def basicSymbolMatch (symbol : Str) (article : Article) : Int :=
  let title := articleTitle article
  let fullText := fullTextOf article
  if !title.isEmpty && symbolPatternTest (lowerStr symbol) title then 150
  else if symbolPatternTest (lowerStr symbol) fullText then 80
  else 0
/-- `RelevancyAnalyzer.scoreArticleRelevance(symbol, article, allArticles)`;
the result is `Math.max(0, Math.round(score))`. -/
noncomputable def scoreArticleRelevance (symbol : Str) (article : Article)
    (allArticles : List Article) : Int :=
  match dbLookup symbol with
  | none => basicSymbolMatch symbol article
  | some companyData =>
    let title := articleTitle article
    let description := articleDescriptionText article
    let fullText := title ++ ' ' :: description
    let score : ℝ := ((scoreDirectMatches symbol companyData title description fullText : Int) : ℝ)
    let score := score +
      (if 0 < allArticles.length then scoreTFIDF symbol companyData fullText allArticles else 0)
    let score := score + ((scoreSemanticSimilarity companyData fullText : Int) : ℝ)
    let score := score + ((scoreFinancialContext fullText : Int) : ℝ)
    max 0 (round (penalizeExclusions companyData fullText score))
/-- The running total of `scoreArticleRelevance` just before the
exclusion penalty is applied (steps 1-4 of the scorer). -/
noncomputable def preScore (symbol : Str) (companyData : CompanyData)
    (article : Article) (allArticles : List Article) : ℝ :=
  ((scoreDirectMatches symbol companyData (articleTitle article)
      (articleDescriptionText article) (fullTextOf article) : Int) : ℝ)
  + (if 0 < allArticles.length then
       scoreTFIDF symbol companyData (fullTextOf article) allArticles else 0)
  + ((scoreSemanticSimilarity companyData (fullTextOf article) : Int) : ℝ)
  + ((scoreFinancialContext (fullTextOf article) : Int) : ℝ)
/-! ## Concrete articles -/

def mkTitled (t : String) : Article :=
  { title := some t.data, description := none, contentSnippet := none,
    link := none, pubDate := none, author := none }
def applePieArticle : Article := mkTitled "apple pie recipe"
def azureArticle : Article := mkTitled "Microsoft Azure outage hits enterprise customers"
/-! ## Batch ranking (`analyzeBatch`, `getTopRelevantArticles`) -/

/-- An article with its attached `relevanceScore`. -/
abbrev ScoredArticle := Article × Int
/-- `RelevancyAnalyzer.analyzeBatch`: score each article against the
whole input list as corpus. -/
noncomputable def analyzeBatch (symbol : Str) (articles : List Article) :
    List ScoredArticle :=
  articles.map (fun article => (article, scoreArticleRelevance symbol article articles))
/-- One insertion step of a stable sort by strictly greater key: the new
element goes after every already-placed element with a key at least as
large, which is what the ES2019+ stable `Array.prototype.sort` guarantees
for the comparator `(a, b) => key(b) - key(a)`. -/
def insertKeyDesc {α : Type} (key : α → Int) (x : α) : List α → List α
  | [] => [x]
  | y :: ys => if key y < key x then x :: y :: ys else y :: insertKeyDesc key x ys
/-- Stable sort, descending in `key`. -/
def sortKeyDesc {α : Type} (key : α → Int) (l : List α) : List α :=
  l.foldl (fun acc x => insertKeyDesc key x acc) []
/-- `RelevancyAnalyzer.getTopRelevantArticles(symbol, articles, n)`:
filter to `relevanceScore >= 30`, sort by score descending, `slice(0, n)`. -/
noncomputable def getTopRelevantArticles (symbol : Str) (articles : List Article)
    (n : ℕ) : List ScoredArticle :=
  (sortKeyDesc (fun p => p.2)
    ((analyzeBatch symbol articles).filter (fun p => 30 ≤ p.2))).take n
/-! ## Sentiment (`ForecastEngine`) -/

/-- `(article.title + ' ' + (article.contentSnippet || article.description || '')).toLowerCase()`
as built by `analyzeSentiment` and `categorizeArticles`. -/
def sentimentText (a : Article) : Str :=
  lowerStr (a.title.getD [] ++ ' ' :: orFalsy (a.contentSnippet.getD []) (a.description.getD []))
/-- Positive keywords of `ForecastEngine.categorizeArticles`. -/
def catPositiveKeywords : List Str := strs
  ["up", "gain", "rise", "surge", "bullish", "growth", "profit", "strong",
   "beat", "positive", "win", "success", "outperform"]
/-- Negative keywords of `ForecastEngine.categorizeArticles`. -/
def catNegativeKeywords : List Str := strs
  ["down", "fall", "drop", "decline", "bearish", "loss", "weak", "miss",
   "negative", "concern", "fail", "plunge", "crash"]
/-- `positiveCount + negativeCount` of an article in
`ForecastEngine.categorizeArticles` (the tie-break quantity). -/
def sentimentHits (a : Article) : ℕ :=
  (catPositiveKeywords.filter (fun k => containsSub (sentimentText a) k)).length +
    (catNegativeKeywords.filter (fun k => containsSub (sentimentText a) k)).length
/-- Positive keywords of `ForecastEngine.analyzeSentiment`. -/
def sentPositiveKeywords : List Str := strs
  ["up", "gain", "rise", "surge", "bullish", "growth", "profit", "strong", "beat", "positive"]
/-- Negative keywords of `ForecastEngine.analyzeSentiment`. -/
def sentNegativeKeywords : List Str := strs
  ["down", "fall", "drop", "decline", "bearish", "loss", "weak", "miss", "negative", "concern"]
structure SentimentSummary where
  score : Int
  confidence : Int
  positiveScore : ℕ
  negativeScore : ℕ
  totalArticles : ℕ
deriving DecidableEq
/-- `ForecastEngine.analyzeSentiment(symbol, newsData)`. The engine gates
each article on `text.includes(symbol.toLowerCase()) || this.isRelevantToStock(symbol, article)`;
the relevance predicate is passed in as `isRel` (it is
`scoreArticleRelevance(symbol, article) >= 30` when the analyzer is loaded). -/
def analyzeSentiment (isRel : Str → Article → Bool) (symbol : Str)
    (newsData : List Article) : SentimentSummary :=
  if newsData.isEmpty then
    { score := 0, confidence := 0, positiveScore := 0, negativeScore := 0, totalArticles := 0 }
  else
    let counted := newsData.filter
      (fun a => containsSub (sentimentText a) (lowerStr symbol) || isRel symbol a)
    let positiveScore := (counted.map (fun a =>
      (sentPositiveKeywords.filter (fun k => containsSub (sentimentText a) k)).length)).sum
    let negativeScore := (counted.map (fun a =>
      (sentNegativeKeywords.filter (fun k => containsSub (sentimentText a) k)).length)).sum
    let totalArticles := counted.length
    let netScore : Int := (positiveScore : Int) - (negativeScore : Int)
    let maxScore : ℕ := max (max positiveScore negativeScore) 1
    let sentimentScore : ℚ :=
      if 0 < totalArticles then ((netScore : ℚ) / (maxScore : ℚ)) * 100 else 0
    { score := round sentimentScore,
      confidence := (min (totalArticles * 10) 100 : ℕ),
      positiveScore := positiveScore,
      negativeScore := negativeScore,
      totalArticles := totalArticles }
/-! ## NewsFeed aggregation (`fetchNews`, `fetchFromMultipleSources`) -/

/-- `article.link` is truthy (present and non-empty). -/
def linkTruthy (a : Article) : Bool := !(a.link.getD []).isEmpty
def linkStr (a : Article) : Str := a.link.getD []
/-- The merge loop of `fetchFromMultipleSources`: walk all per-source
result lists in order, keep an article when its link is truthy and not
seen before (first occurrence wins). -/
def dedupByLink : List Article → List Str → List Article
  | [], _ => []
  | a :: rest, seen =>
    if linkTruthy a ∧ linkStr a ∉ seen then
      a :: dedupByLink rest (linkStr a :: seen)
    else
      dedupByLink rest seen
def mergeDedup (results : List (List Article)) : List Article :=
  dedupByLink results.flatten []
/-- The recency filter: keep when there is no publish date, or the date is
at least the computed one-year-ago cutoff (`pubDate >= oneYearAgo`). -/
def keepRecent (oneYearAgo : Int) (a : Article) : Bool :=
  match a.pubDate with
  | none => true
  | some d => oneYearAgo ≤ d
/-- `new Date(a.pubDate || 0)` as used by the `dateB - dateA` comparator. -/
def dateKey (a : Article) : Int := a.pubDate.getD 0
/-- `NewsFeed.fetchFromMultipleSources` after the per-source fetches:
merge, dedup by link, filter to the last year, sort newest first.
`oneYearAgo` is the cutoff instant the code computes with
`setFullYear(getFullYear() - 1)`. -/
def fetchFromMultipleSources (results : List (List Article)) (oneYearAgo : Int) :
    List Article :=
  sortKeyDesc dateKey ((mergeDedup results).filter (keepRecent oneYearAgo))
/-- The five static sample articles of `useFallbackNews`, stamped relative
to `now` (epoch ms): the most recent at `now`, each prior one a further
hour (3600000 ms) in the past. -/
def fallbackNews (now : Int) : List Article :=
  [{ title := some ("Market Opens Higher on Positive Economic Data".data),
     description := none,
     contentSnippet := some ("Stocks rose in early trading following release of stronger-than-expected economic indicators...".data),
     link := some ("#".data), pubDate := some now,
     author := some ("Financial News".data) },
   { title := some ("Tech Sector Sees Increased Volatility".data),
     description := none,
     contentSnippet := some ("Technology stocks experienced mixed trading as investors digest quarterly earnings reports...".data),
     link := some ("#".data), pubDate := some (now - 3600000),
     author := some ("Market Watch".data) },
   { title := some ("Energy Stocks Rally on Oil Price Surge".data),
     description := none,
     contentSnippet := some ("Energy sector outperformed broader market as oil prices climbed amid supply concerns...".data),
     link := some ("#".data), pubDate := some (now - 7200000),
     author := some ("Bloomberg".data) },
   { title := some ("Fed Holds Interest Rates Steady".data),
     description := none,
     contentSnippet := some ("Federal Reserve maintains current interest rate policy, citing balanced economic outlook...".data),
     link := some ("#".data), pubDate := some (now - 10800000),
     author := some ("Reuters".data) },
   { title := some ("Retail Sector Faces Headwinds".data),
     description := none,
     contentSnippet := some ("Retail companies report mixed earnings as consumer spending patterns shift...".data),
     link := some ("#".data), pubDate := some (now - 14400000),
     author := some ("CNBC".data) }]
/-- `NewsFeed.fetchNews` (the multi-source version): backend proxy first,
then the OAuth/RapidAPI path, then the RSS fan-out; when the merged,
filtered list is empty the static fallback sample set is used.
`proxyResult`/`apiResult` are `none` when the respective path is not
configured or fails. -/
def fetchNews (proxyResult apiResult : Option (List Article))
    (results : List (List Article)) (oneYearAgo now : Int) : List Article :=
  match proxyResult with
  | some items => items
  | none =>
    match apiResult with
    | some items => items
    | none =>
      let allArticles := fetchFromMultipleSources results oneYearAgo
      if !allArticles.isEmpty then allArticles else fallbackNews now
def zzzzArticle : Article := mkTitled "ZZZZ shares climb after earnings"
def brkArticle : Article := mkTitled "BRK B shares rally"
/-! ## The tie-break counterexample for batch ranking -/

def msftUpArticle : Article := mkTitled "Microsoft up"
def msftGainArticle : Article := mkTitled "Microsoft gain rise"
def c2corpus : List Article := [msftUpArticle, msftGainArticle]
def sameLinkA : Article :=
  { title := some ("one".data), description := none, contentSnippet := none,
    link := some ("https://x/a".data), pubDate := some 5, author := none }
def sameLinkB : Article :=
  { title := some ("two".data), description := none, contentSnippet := none,
    link := some ("https://x/a".data), pubDate := some 9, author := none }
def oldArticle : Article :=
  { title := some ("old".data), description := none, contentSnippet := none,
    link := some ("https://x/old".data), pubDate := some (-34560000000), author := none }
def noDateArticle : Article :=
  { title := some ("fresh".data), description := none, contentSnippet := none,
    link := some ("https://x/fresh".data), pubDate := none, author := none }
/-! ## The document-frequency initialization bug (C4) -/

def nvdaArticle : Article := mkTitled "nvda"
def nvdaCorpus : List Article := [nvdaArticle, nvdaArticle]
/-- `docFrequency` as the spec describes it: the number of corpus articles
containing the term (case-insensitively), floored at 1. -/
def docFrequencySpec (articles : List Article) (term : Str) : ℕ :=
  max (countContaining articles (lowerStr term)) 1
/-- The TF-IDF component as the spec describes it: the same term universe
and `tf * ln(corpusSize / docFrequency(term)) * 10` summands, but with
`docFrequency` computed for every term of the universe. -/
noncomputable def scoreTFIDFSpec (symbol : Str) (companyData : CompanyData)
    (text : Str) (allArticles : List Article) : ℝ :=
  ((tfidfAllTerms symbol companyData).map (fun term =>
    ((termFrequency term text : ℚ) : ℝ) *
      Real.log ((allArticles.length : ℝ) / (docFrequencySpec allArticles term : ℝ)) * 10)).sum

theorem scoreArticleRelevance_of_lookup {symbol : Str} {companyData : CompanyData}
    (article : Article) (allArticles : List Article)
    (h : dbLookup symbol = some companyData) :
    scoreArticleRelevance symbol article allArticles =
      max 0 (round (penalizeExclusions companyData (fullTextOf article)
        (preScore symbol companyData article allArticles))) := by
  unfold scoreArticleRelevance
  rw [h]
  rfl
theorem scoreArticleRelevance_of_no_lookup {symbol : Str}
    (article : Article) (allArticles : List Article)
    (h : dbLookup symbol = none) :
    scoreArticleRelevance symbol article allArticles = basicSymbolMatch symbol article := by
  unfold scoreArticleRelevance
  rw [h]
/-! ## Generic lemmas about the loop and sort combinators -/

theorem foldl_add_eq_sum {α : Type} (f : α → Int) (l : List α) (s : Int) :
    l.foldl (fun acc x => acc + f x) s = s + (l.map f).sum := by
  induction l generalizing s with
  | nil => simp
  | cons x l ih => simp [List.foldl_cons, ih (s + f x), add_assoc]
theorem insertKeyDesc_perm {α : Type} (key : α → Int) (x : α) (l : List α) :
    List.Perm (insertKeyDesc key x l) (x :: l) := by
  induction l with
  | nil => exact List.Perm.refl _
  | cons y ys ih =>
    by_cases h : key y < key x
    · simp only [insertKeyDesc, if_pos h]
      exact List.Perm.refl _
    · simp only [insertKeyDesc, if_neg h]
      exact (ih.cons y).trans (List.Perm.swap x y ys)
theorem sortKeyDesc_perm {α : Type} (key : α → Int) (l : List α) :
    List.Perm (sortKeyDesc key l) l := by
  suffices h : ∀ (l acc : List α),
      List.Perm (l.foldl (fun acc x => insertKeyDesc key x acc) acc) (acc ++ l) by
    simpa using h l []
  intro l
  induction l with
  | nil => intro acc; simp
  | cons x l ih =>
    intro acc
    refine List.Perm.trans (ih (insertKeyDesc key x acc)) ?_
    refine List.Perm.trans (((insertKeyDesc_perm key x acc).append_right l)) ?_
    exact (List.perm_middle).symm
theorem mem_sortKeyDesc {α : Type} (key : α → Int) (l : List α) (x : α) :
    x ∈ sortKeyDesc key l ↔ x ∈ l :=
  (sortKeyDesc_perm key l).mem_iff
theorem insertKeyDesc_sorted {α : Type} (key : α → Int) (x : α) (l : List α)
    (h : l.Chain' (fun a b => key b ≤ key a)) :
    (insertKeyDesc key x l).Chain' (fun a b => key b ≤ key a) := by
  induction l with
  | nil => simp [insertKeyDesc]
  | cons y ys ih =>
    by_cases hxy : key y < key x
    · simpa [insertKeyDesc, hxy] using ⟨le_of_lt hxy, h⟩
    · rw [List.chain'_cons'] at h
      simp only [insertKeyDesc, if_neg hxy]
      rw [List.chain'_cons']
      refine ⟨?_, ih h.2⟩
      intro z hz
      cases ys with
      | nil =>
        simp only [insertKeyDesc, List.head?_cons, Option.mem_def, Option.some.injEq] at hz
        subst hz
        exact le_of_not_lt hxy
      | cons w ws =>
        by_cases hw : key w < key x
        · simp only [insertKeyDesc, if_pos hw, List.head?_cons, Option.mem_def,
            Option.some.injEq] at hz
          subst hz
          exact le_of_not_lt hxy
        · simp only [insertKeyDesc, if_neg hw, List.head?_cons, Option.mem_def,
            Option.some.injEq] at hz
          subst hz
          exact h.1 w rfl
theorem sortKeyDesc_sorted {α : Type} (key : α → Int) (l : List α) :
    (sortKeyDesc key l).Chain' (fun a b => key b ≤ key a) := by
  suffices h : ∀ (l acc : List α), acc.Chain' (fun a b => key b ≤ key a) →
      (l.foldl (fun acc x => insertKeyDesc key x acc) acc).Chain' (fun a b => key b ≤ key a) by
    exact h l [] (by simp)
  intro l
  induction l with
  | nil => intro acc hacc; simpa using hacc
  | cons x l ih =>
    intro acc hacc
    exact ih _ (insertKeyDesc_sorted key x acc hacc)
theorem round_mono_real {x y : ℝ} (h : x ≤ y) : round x ≤ round y := by
  rw [round_eq, round_eq]
  exact Int.floor_le_floor (by linarith)
theorem round_mono_rat {x y : ℚ} (h : x ≤ y) : round x ≤ round y := by
  rw [round_eq, round_eq]
  exact Int.floor_le_floor (by linarith)

/-- C2 (amended): `getTopRelevantArticles` returns only articles with
relevance score at least 30, sorted in descending score order, truncated
to at most 100; ties keep the input order (stable sort), they are not
re-ordered by sentiment-keyword hits. -/
theorem c2_top_relevant_ranking (symbol : Str) (articles : List Article) :
    (∀ p ∈ getTopRelevantArticles symbol articles 100, 30 ≤ p.2) ∧
    (getTopRelevantArticles symbol articles 100).Chain' (fun p q => q.2 ≤ p.2) ∧
    (getTopRelevantArticles symbol articles 100).length ≤ 100 := by
  refine ⟨?_, ?_, ?_⟩
  · intro p hp
    have h1 : p ∈ sortKeyDesc (fun p : ScoredArticle => p.2)
        ((analyzeBatch symbol articles).filter (fun p => 30 ≤ p.2)) :=
      List.take_subset _ _ hp
    have h2 : p ∈ (analyzeBatch symbol articles).filter (fun p => 30 ≤ p.2) :=
      (mem_sortKeyDesc _ _ p).mp h1
    have h3 := List.of_mem_filter h2
    exact by simpa using h3
  · exact List.Chain'.take (sortKeyDesc_sorted _ _) 100
  · exact List.length_take_le 100 _
/-- C9: for every relevance predicate, symbol and article list, the
sentiment summary is bounded: the score is an integer in [-100, 100] and
the confidence an integer in [0, 100]. -/
theorem c9_sentiment_bounds (isRel : Str → Article → Bool) (symbol : Str) (newsData : List Article) :
    -100 ≤ (analyzeSentiment isRel symbol newsData).score ∧
    (analyzeSentiment isRel symbol newsData).score ≤ 100 ∧
    0 ≤ (analyzeSentiment isRel symbol newsData).confidence ∧
    (analyzeSentiment isRel symbol newsData).confidence ≤ 100 := by
  unfold analyzeSentiment
  by_cases hempty : newsData.isEmpty
  · simp [hempty]
  · simp only [hempty, if_false, Bool.false_eq_true]
    set counted := newsData.filter
      (fun a => containsSub (sentimentText a) (lowerStr symbol) || isRel symbol a) with hc
    set pos := (counted.map (fun a =>
      (sentPositiveKeywords.filter (fun k => containsSub (sentimentText a) k)).length)).sum with hp
    set neg := (counted.map (fun a =>
      (sentNegativeKeywords.filter (fun k => containsSub (sentimentText a) k)).length)).sum with hn
    set m : ℚ := ((max (max pos neg) 1 : ℕ) : ℚ) with hm
    have hm1 : (1 : ℚ) ≤ m := by
      rw [hm]
      exact_mod_cast le_max_right (max pos neg) 1
    have hmpos : (0 : ℚ) < m := by linarith
    have hple : (pos : ℚ) ≤ m := by
      rw [hm]
      exact_mod_cast le_trans (le_max_left pos neg) (le_max_left _ 1)
    have hnle : (neg : ℚ) ≤ m := by
      rw [hm]
      exact_mod_cast le_trans (le_max_right pos neg) (le_max_left _ 1)
    have hnn : (0 : ℚ) ≤ (pos : ℚ) := by positivity
    have hnn2 : (0 : ℚ) ≤ (neg : ℚ) := by positivity
    have hcast : ((((pos : Int) - (neg : Int)) : Int) : ℚ) = (pos : ℚ) - (neg : ℚ) := by
      push_cast
      ring
    have hup : ((((pos : Int) - (neg : Int)) : Int) : ℚ) / m * 100 ≤ 100 := by
      rw [hcast, div_mul_eq_mul_div, div_le_iff₀ hmpos]
      nlinarith
    have hlo : (-100 : ℚ) ≤ ((((pos : Int) - (neg : Int)) : Int) : ℚ) / m * 100 := by
      rw [hcast, div_mul_eq_mul_div, le_div_iff₀ hmpos]
      nlinarith
    refine ⟨?_, ?_, ?_, ?_⟩
    · by_cases ht : 0 < counted.length
      · simp only [if_pos ht]
        calc (-100 : Int) = round ((-100 : ℚ)) := by
              rw [show ((-100 : ℚ)) = ((-100 : Int) : ℚ) by norm_num, round_intCast]
          _ ≤ _ := round_mono_rat hlo
      · simp only [if_neg ht]
        norm_num
    · by_cases ht : 0 < counted.length
      · simp only [if_pos ht]
        calc round (((((pos : Int) - (neg : Int)) : Int) : ℚ) / m * 100)
            ≤ round ((100 : ℚ)) := round_mono_rat hup
          _ = 100 := by rw [show ((100 : ℚ)) = ((100 : Int) : ℚ) by norm_num, round_intCast]
      · simp only [if_neg ht]
        norm_num
    · positivity
    · exact_mod_cast min_le_right (counted.length * 10) 100
/-! ## Nonnegativity of the score components -/

theorem le_foldl_cond_add {α : Type} (g : α → Bool) (c : Int) (hc : 0 ≤ c)
    (l : List α) (s : Int) :
    s ≤ l.foldl (fun acc x => if g x then acc + c else acc) s := by
  induction l generalizing s with
  | nil => simp
  | cons x l ih =>
    refine le_trans ?_ (ih (if g x then s + c else s))
    by_cases h : g x
    · simp only [if_pos h]
      linarith
    · simp [if_neg h]
theorem scoreSemanticSimilarity_nonneg (companyData : CompanyData) (text : Str) :
    0 ≤ scoreSemanticSimilarity companyData text := by
  unfold scoreSemanticSimilarity
  refine le_trans ?_ (le_foldl_cond_add _ 20 (by norm_num) _ _)
  have h0 : (0 : Int) ≤ if financialTermsList.any (fun t => containsSub text t) then 25 else 0 := by
    by_cases h : financialTermsList.any (fun t => containsSub text t) <;> simp [h]
  by_cases h : 0 < (companyData.competitors.filter (fun c => containsSub text (lowerStr c))).length
  · simp only [if_pos h]
    have : (0 : Int) ≤ 15 * (companyData.competitors.filter (fun c => containsSub text (lowerStr c))).length := by
      positivity
    linarith
  · simpa [if_neg h] using h0
theorem scoreFinancialContext_nonneg (text : Str) : 0 ≤ scoreFinancialContext text := by
  unfold scoreFinancialContext
  refine le_trans ?_ (le_foldl_cond_add _ 15 (by norm_num) _ _)
  exact le_foldl_cond_add _ 20 (by norm_num) _ _
theorem termFrequency_nonneg (term document : Str) : 0 ≤ termFrequency term document := by
  unfold termFrequency
  positivity
theorem docCountOf_pos (articles : List Article) (term : Str) :
    0 < docCountOf articles term := by
  unfold docCountOf
  split
  · exact lt_of_lt_of_le Nat.zero_lt_one (le_max_right _ 1)
  · exact Nat.zero_lt_one
theorem docCountOf_le (articles : List Article) (term : Str) (h : articles ≠ []) :
    docCountOf articles term ≤ articles.length := by
  have hlen : 1 ≤ articles.length := List.length_pos.mpr h
  unfold docCountOf
  split
  · refine max_le ?_ hlen
    unfold countContaining
    exact List.length_filter_le _ _
  · exact hlen
theorem inverseDocumentFrequency_nonneg (term : Str) (articles : List Article)
    (h : articles ≠ []) :
    0 ≤ inverseDocumentFrequency term articles.length articles := by
  unfold inverseDocumentFrequency
  apply Real.log_nonneg
  rw [le_div_iff₀ (by exact_mod_cast docCountOf_pos articles term), one_mul]
  exact_mod_cast docCountOf_le articles term h
theorem foldl_radd_eq_sum {α : Type} (f : α → ℝ) (l : List α) (s : ℝ) :
    l.foldl (fun acc x => acc + f x) s = s + (l.map f).sum := by
  induction l generalizing s with
  | nil => simp
  | cons x l ih => simp [List.foldl_cons, ih (s + f x), add_assoc]
theorem scoreTFIDF_nonneg (symbol : Str) (companyData : CompanyData) (text : Str)
    (allArticles : List Article) (h : allArticles ≠ []) :
    0 ≤ scoreTFIDF symbol companyData text allArticles := by
  unfold scoreTFIDF
  rw [foldl_radd_eq_sum]
  rw [zero_add]
  apply List.sum_nonneg
  intro x hx
  rw [List.mem_map] at hx
  obtain ⟨term, -, rfl⟩ := hx
  have h1 : (0 : ℝ) ≤ ((termFrequency term text : ℚ) : ℝ) := by
    exact_mod_cast termFrequency_nonneg term text
  have h2 := inverseDocumentFrequency_nonneg term allArticles h
  positivity

/-- C3: the direct-match component is the sum of a bare-symbol score and
independent per-term contributions (name: +100 title / +60 body only;
product: +70 title / +40 body only; keyword: +30 anywhere); the MSFT
Azure-outage headline gets a direct-match base of exactly 170 and, for
every corpus, a final relevance score above the 30 threshold. -/
theorem c3_direct_match_weights :
    (∀ (symbol : Str) (companyData : CompanyData) (title description fullText : Str),
      scoreDirectMatches symbol companyData title description fullText =
        symbolMatchScore symbol title fullText
        + (companyData.names.map (nameScore title fullText)).sum
        + ((companyData.products.getD []).map (productScore title fullText)).sum
        + (companyData.keywords.map (keywordScore fullText)).sum) ∧
    scoreDirectMatches ("MSFT".data) msftCompany (articleTitle azureArticle)
      (articleDescriptionText azureArticle) (fullTextOf azureArticle) = 170 ∧
    (∀ corpus : List Article, 30 < scoreArticleRelevance ("MSFT".data) azureArticle corpus) := by
  refine ⟨?_, ?_, ?_⟩
  · intro symbol companyData title description fullText
    unfold scoreDirectMatches
    rw [foldl_add_eq_sum, foldl_add_eq_sum, foldl_add_eq_sum]
  · decide
  · intro corpus
    rw [scoreArticleRelevance_of_lookup _ _
      (show dbLookup ("MSFT".data) = some msftCompany from by decide)]
    unfold penalizeExclusions
    rw [if_pos (show msftCompany.exclude.isEmpty = true from by decide)]
    have hpre : (170 : ℝ) ≤ preScore ("MSFT".data) msftCompany azureArticle corpus := by
      unfold preScore
      have hd : scoreDirectMatches ("MSFT".data) msftCompany (articleTitle azureArticle)
          (articleDescriptionText azureArticle) (fullTextOf azureArticle) = 170 := by decide
      rw [hd]
      have hs : (0 : Int) ≤ scoreSemanticSimilarity msftCompany (fullTextOf azureArticle) :=
        scoreSemanticSimilarity_nonneg _ _
      have hf : (0 : Int) ≤ scoreFinancialContext (fullTextOf azureArticle) :=
        scoreFinancialContext_nonneg _
      have hs2 : (0 : ℝ) ≤ ((scoreSemanticSimilarity msftCompany (fullTextOf azureArticle) : Int) : ℝ) := by
        exact_mod_cast hs
      have hf2 : (0 : ℝ) ≤ ((scoreFinancialContext (fullTextOf azureArticle) : Int) : ℝ) := by
        exact_mod_cast hf
      rcases Nat.eq_zero_or_pos corpus.length with hz | hpos
      · rw [if_neg (by omega)]
        push_cast
        linarith
      · rw [if_pos hpos]
        have ht : 0 ≤ scoreTFIDF ("MSFT".data) msftCompany (fullTextOf azureArticle) corpus :=
          scoreTFIDF_nonneg _ _ _ _ (by
            intro hnil
            rw [hnil] at hpos
            simp at hpos)
        push_cast
        linarith
    have h170 : (170 : Int) ≤ round (preScore ("MSFT".data) msftCompany azureArticle corpus) := by
      calc (170 : Int) = round ((170 : ℝ)) := by
            rw [show ((170 : ℝ)) = ((170 : Int) : ℝ) by norm_num, round_intCast]
        _ ≤ _ := round_mono_real hpre
    have : (170 : Int) ≤ max 0 (round (preScore ("MSFT".data) msftCompany azureArticle corpus)) :=
      le_trans h170 (le_max_right _ _)
    omega
/-! ## Evaluation helpers for the concrete AAPL example -/

theorem applePie_preScore :
    preScore ("AAPL".data) aaplCompany applePieArticle [] = 100 := by
  unfold preScore
  rw [if_neg (by simp)]
  rw [show scoreDirectMatches ("AAPL".data) aaplCompany (articleTitle applePieArticle)
      (articleDescriptionText applePieArticle) (fullTextOf applePieArticle) = 100 from by decide]
  rw [show scoreSemanticSimilarity aaplCompany (fullTextOf applePieArticle) = 0 from by decide]
  rw [show scoreFinancialContext (fullTextOf applePieArticle) = 0 from by decide]
  norm_num
theorem applePie_score_eval :
    scoreArticleRelevance ("AAPL".data) applePieArticle [] = 50 := by
  rw [scoreArticleRelevance_of_lookup _ _
    (show dbLookup ("AAPL".data) = some aaplCompany from by decide)]
  rw [applePie_preScore]
  unfold penalizeExclusions
  rw [if_neg (by decide)]
  rw [if_neg (by
    rintro ⟨-, h2⟩
    norm_num at h2)]
  rw [if_pos (by decide)]
  rw [show max (0:ℝ) (100 - 50) = ((50:Int):ℝ) by norm_num]
  rw [round_intCast]
  decide

/-- C1 (amended): the exclusion penalty is applied last, on the running
total of the four scoring steps (`preScore`): when an `exclude` phrase
occurs in the full text, a running total below 50 is forced to 0, and
otherwise 50 is subtracted with a floor of 0.  However the claimed example
is wrong: for ticker AAPL, the article titled `"apple pie recipe"` scores
50, not 0, because the name `"apple"` matches in the title (+100 ≥ 50). -/
theorem c1_exclusion_penalty :
    (∀ (symbol : Str) (companyData : CompanyData) (article : Article) (corpus : List Article),
      dbLookup symbol = some companyData →
      excludeHit companyData (fullTextOf article) = true →
      (preScore symbol companyData article corpus < 50 →
        scoreArticleRelevance symbol article corpus = 0) ∧
      (50 ≤ preScore symbol companyData article corpus →
        scoreArticleRelevance symbol article corpus =
          max 0 (round (preScore symbol companyData article corpus - 50)))) ∧
    scoreArticleRelevance ("AAPL".data) applePieArticle [] = 50 := by
  constructor
  · intro symbol companyData article corpus hlook hex
    have hne : ¬(companyData.exclude.isEmpty = true) := by
      intro hempty
      unfold excludeHit at hex
      rw [List.isEmpty_iff.mp hempty] at hex
      simp at hex
    rw [scoreArticleRelevance_of_lookup _ _ hlook]
    unfold penalizeExclusions
    rw [if_neg hne]
    constructor
    · intro hlt
      rw [if_pos ⟨hex, hlt⟩]
      simp
    · intro hge
      rw [if_neg (by
        rintro ⟨-, h2⟩
        linarith)]
      rw [if_pos hex]
      rw [max_eq_right (by linarith : (0:ℝ) ≤ preScore symbol companyData article corpus - 50)]
  · exact applePie_score_eval
/-- C1 witness: the hypotheses of `c1_exclusion_penalty` discharged at the
AAPL "apple pie recipe" article with an empty corpus. -/
theorem c1_exclusion_penalty_witness :
    dbLookup ("AAPL".data) = some aaplCompany ∧
    excludeHit aaplCompany (fullTextOf applePieArticle) = true ∧
    50 ≤ preScore ("AAPL".data) aaplCompany applePieArticle [] ∧
    scoreArticleRelevance ("AAPL".data) applePieArticle [] =
      max 0 (round (preScore ("AAPL".data) aaplCompany applePieArticle [] - 50)) := by
  have h1 : dbLookup ("AAPL".data) = some aaplCompany := by decide
  have h2 : excludeHit aaplCompany (fullTextOf applePieArticle) = true := by decide
  have h3 : (50:ℝ) ≤ preScore ("AAPL".data) aaplCompany applePieArticle [] := by
    rw [applePie_preScore]
    norm_num
  exact ⟨h1, h2, h3, ((c1_exclusion_penalty.1 ("AAPL".data) aaplCompany applePieArticle [] h1 h2).2 h3)⟩
/-- C1 counterexample: the claim says the "apple pie recipe" article
scores exactly 0 for AAPL; the code gives 50. -/
theorem c1_apple_pie_counterexample :
    scoreArticleRelevance ("AAPL".data) applePieArticle [] = 50 ∧
    scoreArticleRelevance ("AAPL".data) applePieArticle [] ≠ 0 := by
  refine ⟨applePie_score_eval, ?_⟩
  rw [applePie_score_eval]
  decide
/-- C8: for a validated ticker (1–5 letters, optional dot-letter suffix)
with no CompanyProfile entry (even up to case), the scorer returns
immediately with bare-symbol matching only: +150 for a match of the
bare-symbol regex in the title, +80 anywhere else in the full text,
0 otherwise — independent of the corpus. The symbol is interpolated into
the regex without escaping, so the `'.'` of a dotted ticker such as
BRK.B matches any character (`symCharMatches`); the validation
hypothesis is the spec's boundary rule and scopes the statement to the
symbols that can reach the scorer, whose only metacharacter is the dot. -/
theorem c8_unknown_ticker_basic_match (symbol : Str) (article : Article) (corpus : List Article)
    (_hvalid : isValidSymbol symbol = true)
    (h : ∀ p ∈ companyDatabase, lowerStr p.1 ≠ lowerStr symbol) :
    scoreArticleRelevance symbol article corpus =
      (if !(articleTitle article).isEmpty &&
          symbolPatternTest (lowerStr symbol) (articleTitle article) then 150
       else if symbolPatternTest (lowerStr symbol) (fullTextOf article) then 80
       else 0) := by
  have hnone : dbLookup symbol = none := by
    unfold dbLookup
    rw [List.find?_eq_none.mpr ?_]
    · rfl
    · intro p hp
      have hne := h p hp
      simp only [beq_iff_eq]
      intro he
      exact hne (by rw [he])
  rw [scoreArticleRelevance_of_no_lookup _ _ hnone]
  rfl
/-- C8 witness: the hypotheses discharged at ticker ZZZZ and at the
dotted ticker BRK.B, whose `'.'` matches the space of the title
`"BRK B shares rally"` (wildcard semantics of the unescaped regex). -/
theorem c8_unknown_ticker_witness :
    isValidSymbol ("ZZZZ".data) = true ∧
    (∀ p ∈ companyDatabase, lowerStr p.1 ≠ lowerStr ("ZZZZ".data)) ∧
    scoreArticleRelevance ("ZZZZ".data) zzzzArticle [] = 150 ∧
    isValidSymbol ("BRK.B".data) = true ∧
    (∀ p ∈ companyDatabase, lowerStr p.1 ≠ lowerStr ("BRK.B".data)) ∧
    scoreArticleRelevance ("BRK.B".data) brkArticle [] = 150 := by
  have hv1 : isValidSymbol ("ZZZZ".data) = true := by decide
  have h1 : ∀ p ∈ companyDatabase, lowerStr p.1 ≠ lowerStr ("ZZZZ".data) := by decide
  have hv2 : isValidSymbol ("BRK.B".data) = true := by decide
  have h2 : ∀ p ∈ companyDatabase, lowerStr p.1 ≠ lowerStr ("BRK.B".data) := by decide
  refine ⟨hv1, h1, ?_, hv2, h2, ?_⟩
  · rw [c8_unknown_ticker_basic_match ("ZZZZ".data) zzzzArticle [] hv1 h1]
    decide
  · rw [c8_unknown_ticker_basic_match ("BRK.B".data) brkArticle [] hv2 h2]
    decide
/-- C10: when a name or product term matches in the title, the per-term
contribution is exactly the title weight (100 or 70) even if the term also
occurs in the body — title and body weights are mutually exclusive. -/
theorem c10_title_weight_exclusive (title fullText term : Str) (h1 : title.isEmpty = false)
    (h2 : wbTest term title = true) (_h3 : wbTest term fullText = true) :
    nameScore title fullText term = 100 ∧ productScore title fullText term = 70 := by
  unfold nameScore productScore
  rw [h1, h2]
  simp
/-- C10 witness: the hypotheses discharged at a term occurring in both
the title and the body. -/
theorem c10_title_weight_exclusive_witness :
    (("apple up".data : Str).isEmpty = false) ∧
    wbTest ("apple".data) ("apple up".data) = true ∧
    wbTest ("apple".data) ("apple up apple news".data) = true ∧
    nameScore ("apple up".data) ("apple up apple news".data) ("apple".data) = 100 ∧
    productScore ("apple up".data) ("apple up apple news".data) ("apple".data) = 70 := by
  have h1 : (("apple up".data : Str)).isEmpty = false := by decide
  have h2 : wbTest ("apple".data) ("apple up".data) = true := by decide
  have h3 : wbTest ("apple".data) ("apple up apple news".data) = true := by decide
  exact ⟨h1, h2, h3, c10_title_weight_exclusive _ _ _ h1 h2 h3⟩
/-! ## Helpers for concrete TF-IDF evaluation -/

theorem termFrequency_eq_zero (term doc : Str)
    (h1 : ((jsSplitWs (lowerStr doc)).filter (fun w => containsSub w (lowerStr term))).length = 0) :
    termFrequency term doc = 0 := by
  unfold termFrequency
  simp only []
  rw [h1]
  simp
theorem tfidf_term_zero_of_tf_zero (term text : Str) (h : termFrequency term text = 0)
    (n : ℕ) (articles : List Article) :
    ((termFrequency term text : ℚ) : ℝ) * inverseDocumentFrequency term n articles * 10 = 0 := by
  rw [h]
  simp
theorem tfidf_term_zero_of_idf_zero (term text : Str) (n : ℕ) (articles : List Article)
    (h : inverseDocumentFrequency term n articles = 0) :
    ((termFrequency term text : ℚ) : ℝ) * inverseDocumentFrequency term n articles * 10 = 0 := by
  rw [h]
  ring
theorem idf_zero_of_full (term : Str) (articles : List Article)
    (h : docCountOf articles term = articles.length) (h0 : articles.length ≠ 0) :
    inverseDocumentFrequency term articles.length articles = 0 := by
  unfold inverseDocumentFrequency
  rw [h, div_self (by exact_mod_cast h0)]
  exact Real.log_one
theorem c2corpus_tfidf_up :
    scoreTFIDF ("MSFT".data) msftCompany (fullTextOf msftUpArticle) c2corpus = 0 := by
  unfold scoreTFIDF
  rw [foldl_radd_eq_sum, zero_add]
  apply List.sum_eq_zero
  intro x hx
  rw [List.mem_map] at hx
  obtain ⟨term, ht, rfl⟩ := hx
  fin_cases ht <;>
    first
      | (apply tfidf_term_zero_of_tf_zero
         apply termFrequency_eq_zero
         decide)
      | (apply tfidf_term_zero_of_idf_zero
         apply idf_zero_of_full <;> decide)
theorem c2corpus_tfidf_gain :
    scoreTFIDF ("MSFT".data) msftCompany (fullTextOf msftGainArticle) c2corpus = 0 := by
  unfold scoreTFIDF
  rw [foldl_radd_eq_sum, zero_add]
  apply List.sum_eq_zero
  intro x hx
  rw [List.mem_map] at hx
  obtain ⟨term, ht, rfl⟩ := hx
  fin_cases ht <;>
    first
      | (apply tfidf_term_zero_of_tf_zero
         apply termFrequency_eq_zero
         decide)
      | (apply tfidf_term_zero_of_idf_zero
         apply idf_zero_of_full <;> decide)
theorem c2corpus_score_up :
    scoreArticleRelevance ("MSFT".data) msftUpArticle c2corpus = 100 := by
  rw [scoreArticleRelevance_of_lookup _ _
    (show dbLookup ("MSFT".data) = some msftCompany from by decide)]
  unfold penalizeExclusions
  rw [if_pos (show msftCompany.exclude.isEmpty = true from by decide)]
  have hpre : preScore ("MSFT".data) msftCompany msftUpArticle c2corpus = 100 := by
    unfold preScore
    rw [if_pos (show 0 < c2corpus.length from by decide)]
    rw [show scoreDirectMatches ("MSFT".data) msftCompany (articleTitle msftUpArticle)
        (articleDescriptionText msftUpArticle) (fullTextOf msftUpArticle) = 100 from by decide]
    rw [show scoreSemanticSimilarity msftCompany (fullTextOf msftUpArticle) = 0 from by decide]
    rw [show scoreFinancialContext (fullTextOf msftUpArticle) = 0 from by decide]
    rw [c2corpus_tfidf_up]
    norm_num
  rw [hpre]
  rw [show ((100:ℝ)) = ((100:Int):ℝ) by norm_num, round_intCast]
  decide
theorem c2corpus_score_gain :
    scoreArticleRelevance ("MSFT".data) msftGainArticle c2corpus = 100 := by
  rw [scoreArticleRelevance_of_lookup _ _
    (show dbLookup ("MSFT".data) = some msftCompany from by decide)]
  unfold penalizeExclusions
  rw [if_pos (show msftCompany.exclude.isEmpty = true from by decide)]
  have hpre : preScore ("MSFT".data) msftCompany msftGainArticle c2corpus = 100 := by
    unfold preScore
    rw [if_pos (show 0 < c2corpus.length from by decide)]
    rw [show scoreDirectMatches ("MSFT".data) msftCompany (articleTitle msftGainArticle)
        (articleDescriptionText msftGainArticle) (fullTextOf msftGainArticle) = 100 from by decide]
    rw [show scoreSemanticSimilarity msftCompany (fullTextOf msftGainArticle) = 0 from by decide]
    rw [show scoreFinancialContext (fullTextOf msftGainArticle) = 0 from by decide]
    rw [c2corpus_tfidf_gain]
    norm_num
  rw [hpre]
  rw [show ((100:ℝ)) = ((100:Int):ℝ) by norm_num, round_intCast]
  decide
theorem getTop_msft_eval :
    getTopRelevantArticles ("MSFT".data) c2corpus 100 =
      [(msftUpArticle, 100), (msftGainArticle, 100)] := by
  unfold getTopRelevantArticles
  have hmap : analyzeBatch ("MSFT".data) c2corpus =
      [(msftUpArticle, (100 : Int)), (msftGainArticle, 100)] := by
    unfold analyzeBatch c2corpus
    rw [List.map_cons, List.map_cons, List.map_nil]
    rw [show (msftUpArticle, scoreArticleRelevance ("MSFT".data) msftUpArticle
          [msftUpArticle, msftGainArticle]) = (msftUpArticle, (100 : Int)) from by
        rw [show ([msftUpArticle, msftGainArticle] : List Article) = c2corpus from rfl,
          c2corpus_score_up]]
    rw [show (msftGainArticle, scoreArticleRelevance ("MSFT".data) msftGainArticle
          [msftUpArticle, msftGainArticle]) = (msftGainArticle, (100 : Int)) from by
        rw [show ([msftUpArticle, msftGainArticle] : List Article) = c2corpus from rfl,
          c2corpus_score_gain]]
  rw [hmap]
  decide
/-- C2 counterexample: two MSFT articles with equal score 100 come back
in input order even though the first has fewer sentiment-keyword hits than
the second, so ties are not broken by sentiment hits in
`getTopRelevantArticles`. -/
theorem c2_tie_break_counterexample :
    getTopRelevantArticles ("MSFT".data) c2corpus 100 =
      [(msftUpArticle, 100), (msftGainArticle, 100)] ∧
    sentimentHits msftUpArticle < sentimentHits msftGainArticle :=
  ⟨getTop_msft_eval, by decide⟩
/-- C2 witness: the membership hypothesis of `c2_top_relevant_ranking`
discharged at a concrete ranked article. -/
theorem c2_top_relevant_ranking_witness :
    (msftUpArticle, (100 : Int)) ∈ getTopRelevantArticles ("MSFT".data) c2corpus 100 ∧
    30 ≤ ((msftUpArticle, (100 : Int)) : ScoredArticle).2 := by
  have hmem : (msftUpArticle, (100 : Int)) ∈ getTopRelevantArticles ("MSFT".data) c2corpus 100 := by
    rw [getTop_msft_eval]
    exact List.mem_cons_self _ _
  exact ⟨hmem, (c2_top_relevant_ranking ("MSFT".data) c2corpus).1 _ hmem⟩
/-! ## Deduplication and aggregation lemmas -/

theorem dedupByLink_not_seen (l : List Article) (seen : List Str) (a : Article)
    (h : a ∈ dedupByLink l seen) :
    linkTruthy a = true ∧ linkStr a ∉ seen := by
  induction l generalizing seen with
  | nil => simp [dedupByLink] at h
  | cons b rest ih =>
    unfold dedupByLink at h
    by_cases hb : linkTruthy b ∧ linkStr b ∉ seen
    · rw [if_pos hb] at h
      rcases List.mem_cons.mp h with rfl | hmem
      · exact hb
      · have := ih (linkStr b :: seen) hmem
        exact ⟨this.1, fun hs => this.2 (List.mem_cons_of_mem _ hs)⟩
    · rw [if_neg hb] at h
      exact ih seen h
theorem dedupByLink_pairwise (l : List Article) (seen : List Str) :
    (dedupByLink l seen).Pairwise (fun a b => linkStr a ≠ linkStr b) := by
  induction l generalizing seen with
  | nil => simp [dedupByLink]
  | cons b rest ih =>
    unfold dedupByLink
    by_cases hb : linkTruthy b ∧ linkStr b ∉ seen
    · rw [if_pos hb]
      refine List.pairwise_cons.mpr ⟨?_, ih (linkStr b :: seen)⟩
      intro a ha
      have := dedupByLink_not_seen rest (linkStr b :: seen) a ha
      intro he
      exact this.2 (by rw [← he]; exact List.mem_cons_self _ _)
    · rw [if_neg hb]
      exact ih seen
theorem dedupByLink_first (l : List Article) (seen : List Str) (a : Article)
    (h : a ∈ dedupByLink l seen) :
    l.find? (fun b => linkStr b == linkStr a) = some a := by
  induction l generalizing seen with
  | nil => simp [dedupByLink] at h
  | cons b rest ih =>
    unfold dedupByLink at h
    by_cases hb : linkTruthy b ∧ linkStr b ∉ seen
    · rw [if_pos hb] at h
      rcases List.mem_cons.mp h with rfl | hmem
      · exact List.find?_cons_of_pos _ (by simp)
      · have hns := dedupByLink_not_seen rest (linkStr b :: seen) a hmem
        have hne : linkStr b ≠ linkStr a := by
          intro he
          exact hns.2 (by rw [← he]; exact List.mem_cons_self _ _)
        rw [List.find?_cons_of_neg _ (by simpa using hne)]
        exact ih (linkStr b :: seen) hmem
    · rw [if_neg hb] at h
      have hns := dedupByLink_not_seen rest seen a h
      have hne : linkStr b ≠ linkStr a := by
        rcases not_and_or.mp hb with hb1 | hb2
        · have hbe : linkStr b = [] := by
            unfold linkTruthy at hb1
            unfold linkStr
            simpa using hb1
          have hae : linkStr a ≠ [] := by
            have := hns.1
            unfold linkTruthy at this
            unfold linkStr
            simpa using this
          rw [hbe]
          exact fun he => hae he.symm
        · have hbm : linkStr b ∈ seen := not_not.mp hb2
          intro he
          exact hns.2 (he ▸ hbm)
      rw [List.find?_cons_of_neg _ (by simpa using hne)]
      exact ih seen h
theorem keepRecent_iff (oneYearAgo : Int) (a : Article) :
    keepRecent oneYearAgo a = true ↔
      (a.pubDate = none ∨ ∃ d, a.pubDate = some d ∧ oneYearAgo ≤ d) := by
  unfold keepRecent
  cases hp : a.pubDate with
  | none => simp
  | some d =>
    simp only [decide_eq_true_eq]
    constructor
    · intro h
      exact Or.inr ⟨d, rfl, h⟩
    · rintro (h | ⟨e, he, hle⟩)
      · exact absurd h (by simp)
      · cases he
        exact hle
theorem mem_fetchFromMultipleSources (results : List (List Article)) (oneYearAgo : Int)
    (a : Article) :
    a ∈ fetchFromMultipleSources results oneYearAgo ↔
      (a ∈ mergeDedup results ∧
        (a.pubDate = none ∨ ∃ d, a.pubDate = some d ∧ oneYearAgo ≤ d)) := by
  unfold fetchFromMultipleSources
  rw [mem_sortKeyDesc, List.mem_filter, keepRecent_iff]

theorem flatten_replicate_nil (k : ℕ) : (List.replicate k ([] : List Article)).flatten = [] := by
  induction k with
  | zero => rfl
  | succ n ih => simp [List.replicate_succ, ih]
/-- C5: when every source and every strategy fails (all per-source item
lists empty, no proxy or API result) `fetchNews` returns exactly the
5-article static fallback set, stamped `now`, `now - 1h`, ..., `now - 4h`. -/
theorem c5_total_failure_fallback (now oneYearAgo : Int) (k : ℕ) :
    fetchNews none none (List.replicate k []) oneYearAgo now = fallbackNews now ∧
    (fallbackNews now).length = 5 ∧
    (fallbackNews now).map Article.pubDate =
      [some now, some (now - 3600000), some (now - 7200000),
       some (now - 10800000), some (now - 14400000)] := by
  refine ⟨?_, rfl, rfl⟩
  unfold fetchNews
  have hempty : fetchFromMultipleSources (List.replicate k []) oneYearAgo = [] := by
    unfold fetchFromMultipleSources mergeDedup
    rw [flatten_replicate_nil]
    rfl
  rw [hempty]
  rfl
/-- C6 (amended): the merged multi-source list never holds two articles
with the same link — an article whose link was already seen is dropped and
the first occurrence wins; (the total-failure fallback set, however,
shares one placeholder link, see the counterexample). -/
theorem c6_dedup_by_link :
    (∀ (results : List (List Article)) (oneYearAgo : Int),
      (fetchFromMultipleSources results oneYearAgo).Pairwise
        (fun a b => linkStr a ≠ linkStr b)) ∧
    (∀ (results : List (List Article)) (a : Article), a ∈ mergeDedup results →
      (results.flatten).find? (fun b => linkStr b == linkStr a) = some a) := by
  constructor
  · intro results oneYearAgo
    have h1 : (mergeDedup results).Pairwise (fun a b => linkStr a ≠ linkStr b) :=
      dedupByLink_pairwise _ _
    have h2 : ((mergeDedup results).filter (keepRecent oneYearAgo)).Pairwise
        (fun a b => linkStr a ≠ linkStr b) := h1.filter _
    unfold fetchFromMultipleSources
    exact h2.perm (sortKeyDesc_perm dateKey _).symm (fun hab => hab.symm)
  · intro results a h
    exact dedupByLink_first _ _ a h
/-- C6 witness: the membership hypothesis of `c6_dedup_by_link`
discharged at a concrete two-article merge with a duplicated link. -/
theorem c6_dedup_by_link_witness :
    sameLinkA ∈ mergeDedup [[sameLinkA, sameLinkB]] ∧
    ([[sameLinkA, sameLinkB]] : List (List Article)).flatten.find?
      (fun b => linkStr b == linkStr sameLinkA) = some sameLinkA := by
  have h : sameLinkA ∈ mergeDedup [[sameLinkA, sameLinkB]] := by decide
  exact ⟨h, c6_dedup_by_link.2 [[sameLinkA, sameLinkB]] sameLinkA h⟩
/-- C6 counterexample: on total failure `fetchNews` returns the five
fallback articles, which all carry the same link `"#"`. -/
theorem c6_fallback_duplicate_links :
    ¬ ((fetchNews none none (List.replicate 15 []) 0 0).Pairwise
        (fun a b => linkStr a ≠ linkStr b)) ∧
    (fetchNews none none (List.replicate 15 []) 0 0).map Article.link =
      [some ("#".data), some ("#".data), some ("#".data),
       some ("#".data), some ("#".data)] := by
  constructor
  · decide
  · decide
/-- C7: an article survives the aggregation filter iff it survives the
dedup merge and either has no publish date or is dated at or after the
one-year-ago cutoff; in particular an article dated 400 days before `now`
is excluded whenever the cutoff is at most 366 days back. -/
theorem c7_recency_filter :
    (∀ (results : List (List Article)) (oneYearAgo : Int) (a : Article),
      a ∈ fetchFromMultipleSources results oneYearAgo ↔
        (a ∈ mergeDedup results ∧
          (a.pubDate = none ∨ ∃ d, a.pubDate = some d ∧ oneYearAgo ≤ d))) ∧
    (∀ (results : List (List Article)) (oneYearAgo now : Int) (a : Article),
      now - 366 * 86400000 ≤ oneYearAgo →
      a.pubDate = some (now - 400 * 86400000) →
      a ∉ fetchFromMultipleSources results oneYearAgo) := by
  constructor
  · exact mem_fetchFromMultipleSources
  · intro results oneYearAgo now a hcut hdate hmem
    rcases (mem_fetchFromMultipleSources results oneYearAgo a).mp hmem with ⟨-, hd⟩
    rcases hd with hnone | ⟨d, hde, hle⟩
    · rw [hdate] at hnone
      exact Option.some_ne_none _ hnone
    · rw [hdate] at hde
      have : d = now - 400 * 86400000 := (Option.some.injEq _ _).mp hde.symm
      omega
/-- C7 witness: with `now = 0` and the cutoff exactly 366 days back, a
400-day-old article is excluded and an undated article is kept. -/
theorem c7_recency_filter_witness :
    ((0 : Int) - 366 * 86400000 ≤ -31622400000) ∧
    oldArticle.pubDate = some ((0 : Int) - 400 * 86400000) ∧
    oldArticle ∉ fetchFromMultipleSources [[oldArticle, noDateArticle]] (-31622400000) ∧
    noDateArticle ∈ fetchFromMultipleSources [[oldArticle, noDateArticle]] (-31622400000) := by
  refine ⟨by norm_num, by norm_num [oldArticle], ?_, ?_⟩
  · exact c7_recency_filter.2 [[oldArticle, noDateArticle]] (-31622400000) 0 oldArticle
      (by norm_num) (by norm_num [oldArticle])
  · refine (c7_recency_filter.1 [[oldArticle, noDateArticle]] (-31622400000) noDateArticle).mpr ?_
    exact ⟨by decide, Or.inl rfl⟩
theorem term_zero_of_tf_zero (term text : Str)
    (h : ((jsSplitWs (lowerStr text)).filter (fun w => containsSub w (lowerStr term))).length = 0)
    (r : ℝ) :
    ((termFrequency term text : ℚ) : ℝ) * r * 10 = 0 := by
  rw [termFrequency_eq_zero term text h]
  simp
theorem termFrequency_eq (term doc : Str) (a b : ℕ)
    (h1 : ((jsSplitWs (lowerStr doc)).filter (fun w => containsSub w (lowerStr term))).length = a)
    (h2 : (jsSplitWs (lowerStr doc)).length = b) :
    termFrequency term doc = (a : ℚ) / (b : ℚ) := by
  unfold termFrequency
  simp only []
  rw [h1, h2]
theorem spec_term_zero_of_count_full (term text : Str) (articles : List Article)
    (h : docFrequencySpec articles term = articles.length) (h0 : articles.length ≠ 0) :
    ((termFrequency term text : ℚ) : ℝ) *
      Real.log ((articles.length : ℝ) / (docFrequencySpec articles term : ℝ)) * 10 = 0 := by
  rw [h, div_self (by exact_mod_cast h0), Real.log_one]
  ring
theorem nvda_idf_code :
    inverseDocumentFrequency ("nvda".data) nvdaCorpus.length nvdaCorpus = Real.log 2 := by
  unfold inverseDocumentFrequency
  rw [show docCountOf nvdaCorpus ("nvda".data) = 1 from by decide]
  norm_num [show nvdaCorpus.length = 2 from rfl]

/-- C4: `initializeDocumentFrequency` only registers the first name,
first product and first keyword of each company (`Set.add(...spread)`
keeps one argument), so for the term `"nvda"` in a 2-article corpus that
contains it twice, the code uses docCount 1 (idf = ln 2) where the spec's
docFrequency formula gives 2 (idf = ln 1 = 0); the TF-IDF components
differ: `10 * ln 2` versus `0`. -/
theorem c4_docfreq_initialization_bug :
    countContaining nvdaCorpus ("nvda".data) = 2 ∧
    docFrequencySpec nvdaCorpus ("nvda".data) = 2 ∧
    docCountOf nvdaCorpus ("nvda".data) = 1 ∧
    scoreTFIDF ("NVDA".data) nvdaCompany (fullTextOf nvdaArticle) nvdaCorpus = 10 * Real.log 2 ∧
    scoreTFIDFSpec ("NVDA".data) nvdaCompany (fullTextOf nvdaArticle) nvdaCorpus = 0 ∧
    scoreTFIDF ("NVDA".data) nvdaCompany (fullTextOf nvdaArticle) nvdaCorpus ≠
      scoreTFIDFSpec ("NVDA".data) nvdaCompany (fullTextOf nvdaArticle) nvdaCorpus := by
  have hterms : tfidfAllTerms ("NVDA".data) nvdaCompany =
      strs ["nvda", "nvidia", "nvda", "gpu", "graphics card", "geforce", "rtx", "cuda",
        "tensor", "a100", "h100", "dlss", "jensen huang", "nvidia gpu",
        "artificial intelligence", "ai chip", "data center", "rtx gpu"] := by decide
  have hcode : scoreTFIDF ("NVDA".data) nvdaCompany (fullTextOf nvdaArticle) nvdaCorpus =
      10 * Real.log 2 := by
    unfold scoreTFIDF
    rw [foldl_radd_eq_sum, zero_add, hterms]
    simp only [strs, List.map_cons, List.map_nil, List.sum_cons, List.sum_nil]
    simp only [show termFrequency ("nvidia".data) (fullTextOf nvdaArticle) = 0 from termFrequency_eq_zero _ _ (by decide),
      show termFrequency ("gpu".data) (fullTextOf nvdaArticle) = 0 from termFrequency_eq_zero _ _ (by decide),
      show termFrequency ("graphics card".data) (fullTextOf nvdaArticle) = 0 from termFrequency_eq_zero _ _ (by decide),
      show termFrequency ("geforce".data) (fullTextOf nvdaArticle) = 0 from termFrequency_eq_zero _ _ (by decide),
      show termFrequency ("rtx".data) (fullTextOf nvdaArticle) = 0 from termFrequency_eq_zero _ _ (by decide),
      show termFrequency ("cuda".data) (fullTextOf nvdaArticle) = 0 from termFrequency_eq_zero _ _ (by decide),
      show termFrequency ("tensor".data) (fullTextOf nvdaArticle) = 0 from termFrequency_eq_zero _ _ (by decide),
      show termFrequency ("a100".data) (fullTextOf nvdaArticle) = 0 from termFrequency_eq_zero _ _ (by decide),
      show termFrequency ("h100".data) (fullTextOf nvdaArticle) = 0 from termFrequency_eq_zero _ _ (by decide),
      show termFrequency ("dlss".data) (fullTextOf nvdaArticle) = 0 from termFrequency_eq_zero _ _ (by decide),
      show termFrequency ("jensen huang".data) (fullTextOf nvdaArticle) = 0 from termFrequency_eq_zero _ _ (by decide),
      show termFrequency ("nvidia gpu".data) (fullTextOf nvdaArticle) = 0 from termFrequency_eq_zero _ _ (by decide),
      show termFrequency ("artificial intelligence".data) (fullTextOf nvdaArticle) = 0 from termFrequency_eq_zero _ _ (by decide),
      show termFrequency ("ai chip".data) (fullTextOf nvdaArticle) = 0 from termFrequency_eq_zero _ _ (by decide),
      show termFrequency ("data center".data) (fullTextOf nvdaArticle) = 0 from termFrequency_eq_zero _ _ (by decide),
      show termFrequency ("rtx gpu".data) (fullTextOf nvdaArticle) = 0 from termFrequency_eq_zero _ _ (by decide)]
    rw [termFrequency_eq ("nvda".data) (fullTextOf nvdaArticle) 1 2 (by decide) (by decide)]
    rw [nvda_idf_code]
    push_cast
    ring
  have hspec : scoreTFIDFSpec ("NVDA".data) nvdaCompany (fullTextOf nvdaArticle) nvdaCorpus
      = 0 := by
    unfold scoreTFIDFSpec
    apply List.sum_eq_zero
    intro x hx
    rw [List.mem_map] at hx
    obtain ⟨term, ht, rfl⟩ := hx
    rw [hterms] at ht
    fin_cases ht <;>
      first
        | (apply term_zero_of_tf_zero
           decide)
        | (apply spec_term_zero_of_count_full <;> decide)
  have hlog : (0 : ℝ) < Real.log 2 := Real.log_pos (by norm_num)
  refine ⟨by decide, by decide, by decide, hcode, hspec, ?_⟩
  rw [hcode, hspec]
  intro he
  nlinarith
